import Mathlib

/-!
Shallow embedding of the citizen-reporting pipeline of this repository
(orchestrator.py, trash_agent.py, pothole_agent.py, electricity_agent.py).

Conventions of the embedding:
* Python floats are modelled as exact rationals.
* Python values that may be None are modelled as Option.
* Python exceptions are modelled with Except String, carrying str(e); a
  try/except block becomes a match on the Except value.
* Remote services (the generation model, the geocoding service) and file
  system reads are oracles: their outcomes are fields of an environment
  record, and the control flow that consumes those outcomes is translated
  from the source.
* The outcome of json.loads on the cleaned model reply is part of the
  oracle (field parsed of GeminiReply): none models a JSONDecodeError,
  some a models a successful parse to the dict a.  Analyses whose present
  keys hold JSON null or ill-typed values are outside the scope of this
  model; each Analysis field is none exactly when the key is absent.
-/

/-- Single quote character, kept out of string literals. -/
def quoteCh : String := (Char.ofNat 39).toString

/-- Python str.lower / pandas case folding, character by character. -/
def lowerStr (s : String) : String := String.mk (s.data.map Char.toLower)

/-- Whitespace test used by Python str.strip. -/
def isWS (c : Char) : Bool :=
  c == ' ' || c == '\t' || c == '\n' || c == '\r'

/-- Drop leading whitespace characters. -/
def dropWS : List Char → List Char
  | [] => []
  | c :: cs => if isWS c then dropWS cs else c :: cs

/-- Python str.strip: remove whitespace from both ends. -/
def pyStrip (s : String) : String :=
  String.mk ((dropWS ((dropWS s.data).reverse)).reverse)

/-- The first list is an initial segment of the second. -/
def chPre : List Char → List Char → Bool
  | [], _ => true
  | _ :: _, [] => false
  | a :: as, b :: bs => a == b && chPre as bs

/-- The first list occurs contiguously inside the second. -/
def chSub (needle : List Char) : List Char → Bool
  | [] => chPre needle []
  | h :: t => chPre needle (h :: t) || chSub needle t

/-- Case-sensitive substring test on strings. -/
def containsStr (hay pat : String) : Bool := chSub pat.data hay.data

/-- Case-insensitive substring test.  pandas Series.str.contains compiles
its pattern as a regular expression by default (regex=True); on locator
names free of regex metacharacters, which is the case in every workflow
scenario below, regex search coincides with this test.  The full pattern
semantics, including the dot wildcard and the re.error raise on invalid
patterns, is modelled by reParsePattern and reSearch below. -/
def containsCI (hay pat : String) : Bool :=
  chSub (lowerStr pat).data (lowerStr hay).data

/-- One row of a roster CSV (bbmp.csv or bescom.csv) after the column-name
normalisation in configure_and_load_data.  A none field models a pandas
NaN cell. -/
structure OfficialRow where
  department : Option String
  area : Option String
  name : Option String
  designation : Option String
  phone : Option String
deriving Repr, DecidableEq

/-- Row predicate of find_official_for_ward (trash_agent.py and
pothole_agent.py, identical in both), restricted to metacharacter-free
ward names: department equals "BBMP (Ward)" exactly (a NaN cell compares
unequal) and the area cell contains the ward name case-insensitively
(na=False sends NaN cells to false).  trashRowMatchRe below carries the
full pattern semantics. -/
def trashRowMatch (ward_name : String) (r : OfficialRow) : Bool :=
  (r.department == some "BBMP (Ward)") &&
  (match r.area with
   | none => false
   | some a => containsCI a ward_name)

/-- find_official_for_ward of trash_agent.py / pothole_agent.py as used
inside the workflow embedding (whose locator names are metacharacter
free): filter the roster rows by trashRowMatch and return the first
surviving row, none when no row survives.  The roster-lookup claims are
settled against find_official_for_ward_re below, which models the full
pandas pattern semantics including the re.error raise. -/
def find_official_for_ward (officials_df : List OfficialRow)
    (ward_name : String) : Option OfficialRow :=
  (officials_df.filter (trashRowMatch ward_name)).head?

/-- Row predicate of find_official_for_division (electricity_agent.py),
restricted to metacharacter-free division names: department equals
"BESCOM (Division)" exactly, the area cell contains the division name
case-insensitively, the phone cell is not NaN, and the phone cell differs
from the empty string (pandas: NaN != "" is true).  divisionRowMatchRe
below carries the full pattern semantics. -/
def divisionRowMatch (division_name : String) (r : OfficialRow) : Bool :=
  (r.department == some "BESCOM (Division)") &&
  (match r.area with
   | none => false
   | some a => containsCI a division_name) &&
  r.phone.isSome &&
  (match r.phone with
   | none => true
   | some p => p != "")

/-- find_official_for_division of electricity_agent.py as used inside the
workflow embedding; see find_official_for_ward and
find_official_for_division_re. -/
def find_official_for_division (officials_df : List OfficialRow)
    (division_name : String) : Option OfficialRow :=
  (officials_df.filter (divisionRowMatch division_name)).head?

/-!
pandas Series.str.contains treats its pattern as a regular expression by
default (regex=True), so the locator name is handed to re.compile and
searched (re.search with re.IGNORECASE because of case=False) inside each
area cell.  The model below covers a subset of that behavior exactly:
patterns made of literal characters and the dot wildcard, and patterns
that re.compile rejects because of unbalanced parentheses.  Valid
patterns using other regex constructs (escapes, character classes,
repetition, groups, alternation, anchors) are marked unmodelled and no
claim is made about them.
-/

/-- Regex metacharacters of Python re, the dot excepted (the dot belongs
to the modelled subset). -/
def isReMeta (c : Char) : Bool :=
  c == '^' || c == '$' || c == '*' || c == '+' || c == '?' ||
  c == Char.ofNat 123 || c == Char.ofNat 125 || c == '[' || c == ']' ||
  c == '\\' || c == '|' || c == '(' || c == ')'

/-- One token of the modelled regex subset: a literal character or the
dot wildcard. -/
inductive ReTok where
  | lit (c : Char)
  | anyChar
deriving Repr, DecidableEq

/-- Occurrences of a character in a list. -/
def countCh (c : Char) (l : List Char) : Nat :=
  (l.filter (fun d => d == c)).length

/-- Outcome of re.compile on a locator pattern. -/
inductive ReParse where
  | parsed (toks : List ReTok)
  | invalid (msg : String)
  | unmodelled
deriving Repr, DecidableEq

/-- re.compile on a locator pattern: a pattern without metacharacters
(the dot aside) compiles to a token list; a pattern whose parentheses are
all structural (no escapes, no character classes) but unbalanced raises
re.error; anything else is a valid pattern outside the modelled subset.
The invalid message carries the re.error text without the position suffix
Python appends; no theorem relies on the message text. -/
def reParsePattern (pat : String) : ReParse :=
  let cs := pat.data
  if cs.all (fun c => !(isReMeta c)) then
    ReParse.parsed (cs.map (fun c => if c == '.' then ReTok.anyChar else ReTok.lit c))
  else if cs.all (fun c => c != '\\' && c != '[') ∧ countCh ')' cs < countCh '(' cs then
    ReParse.invalid "missing ), unterminated subpattern"
  else if cs.all (fun c => c != '\\' && c != '[') ∧ countCh '(' cs < countCh ')' cs then
    ReParse.invalid "unbalanced parenthesis"
  else
    ReParse.unmodelled

/-- One pattern token against one subject character, under re.IGNORECASE;
the dot wildcard matches anything but a newline. -/
def reTokMatch (t : ReTok) (c : Char) : Bool :=
  match t with
  | .anyChar => c != '\n'
  | .lit l => Char.toLower l == Char.toLower c

/-- The token list matches an initial segment of the subject. -/
def reMatchHere : List ReTok → List Char → Bool
  | [], _ => true
  | _ :: _, [] => false
  | t :: ts, c :: cs => reTokMatch t c && reMatchHere ts cs

/-- re.search: the token list matches somewhere inside the subject. -/
def reSearch (toks : List ReTok) : List Char → Bool
  | [] => reMatchHere toks []
  | c :: cs => reMatchHere toks (c :: cs) || reSearch toks cs

/-- Row predicate of find_official_for_ward under the full pandas
semantics: the compiled locator pattern is searched case-insensitively
inside the area cell (na=False sends NaN cells to false). -/
def trashRowMatchRe (toks : List ReTok) (r : OfficialRow) : Bool :=
  (r.department == some "BBMP (Ward)") &&
  (match r.area with
   | none => false
   | some a => reSearch toks a.data)

/-- Row predicate of find_official_for_division under the full pandas
semantics; phone conditions as in divisionRowMatch. -/
def divisionRowMatchRe (toks : List ReTok) (r : OfficialRow) : Bool :=
  (r.department == some "BESCOM (Division)") &&
  (match r.area with
   | none => false
   | some a => reSearch toks a.data) &&
  r.phone.isSome &&
  (match r.phone with
   | none => true
   | some p => p != "")

/-- find_official_for_ward of trash_agent.py / pothole_agent.py with the
pandas pattern semantics modelled: an invalid locator pattern raises
re.error when pandas compiles it, a pattern inside the modelled subset
filters the roster by regex search with the first surviving row winning.
The outer Option is the scope of the model: none marks valid patterns
outside the modelled subset, about which no claim is made. -/
def find_official_for_ward_re (officials_df : List OfficialRow)
    (ward_name : String) : Option (Except String (Option OfficialRow)) :=
  match reParsePattern ward_name with
  | .invalid msg => some (Except.error msg)
  | .parsed toks =>
    some (Except.ok ((officials_df.filter (trashRowMatchRe toks)).head?))
  | .unmodelled => none

/-- find_official_for_division of electricity_agent.py with the pandas
pattern semantics modelled; see find_official_for_ward_re. -/
def find_official_for_division_re (officials_df : List OfficialRow)
    (division_name : String) : Option (Except String (Option OfficialRow)) :=
  match reParsePattern division_name with
  | .invalid msg => some (Except.error msg)
  | .parsed toks =>
    some (Except.ok ((officials_df.filter (divisionRowMatchRe toks)).head?))
  | .unmodelled => none

/-- The GPSInfo sub-dictionary collected from EXIF tags: optional
degree/minute/second triples and hemisphere references. -/
structure GpsInfo where
  latitude : Option (ℚ × ℚ × ℚ)
  longitude : Option (ℚ × ℚ × ℚ)
  latitudeRef : Option String
  longitudeRef : Option String
deriving Repr, DecidableEq

/-- The EXIF content of an image as seen by get_geolocation: no EXIF block
at all, a block whose traversal raises (any malformed tag set, absorbed by
the catch-all), or a well-formed GPSInfo dictionary. -/
inductive ExifData where
  | noExif
  | malformed
  | gps (info : GpsInfo)
deriving Repr, DecidableEq

/-- Decimal-degree conversion used by get_geolocation:
deg + min divided by 60 + sec divided by 3600. -/
def dmsToDecimal (d m s : ℚ) : ℚ := d + m / 60 + s / 3600

/-- get_geolocation of trash_agent.py / pothole_agent.py /
electricity_agent.py (identical in all three): returns a latitude and
longitude pair, each none when unavailable.  No EXIF data and any raising
traversal both yield (none, none); with both DMS triples present the
decimal conversion is applied and the sign is flipped on a South latitude
reference or a West longitude reference. -/
def get_geolocation : ExifData → Option ℚ × Option ℚ
  | .noExif => (none, none)
  | .malformed => (none, none)
  | .gps info =>
    match info.latitude, info.longitude with
    | some (ld, lm, ls), some (nd, nm, ns) =>
      let lat_deg := dmsToDecimal ld lm ls
      let lon_deg := dmsToDecimal nd nm ns
      let lat_deg := if info.latitudeRef == some "S" then -lat_deg else lat_deg
      let lon_deg := if info.longitudeRef == some "W" then -lon_deg else lon_deg
      (some lat_deg, some lon_deg)
    | _, _ => (none, none)

/-- Modelled from the spec: the inverse DMS encoding used by the round-trip
property (no encoder exists under src/; the spec asks that "the inverse DMS
encoding must decode back to the original").  Splits the absolute value of
a decimal coordinate into whole degrees, whole minutes and residual
seconds. -/
def encodeDMS (x : ℚ) : ℚ × ℚ × ℚ :=
  let y := |x|
  let d : ℚ := (⌊y⌋ : ℚ)
  let m : ℚ := (⌊(y - d) * 60⌋ : ℚ)
  let s : ℚ := ((y - d) * 60 - m) * 60
  (d, m, s)

/-- Modelled from the spec: EXIF GPS tags encoding a decimal coordinate
pair, with South / West hemisphere references for negative values. -/
def encodeExif (lat lon : ℚ) : GpsInfo :=
  { latitude := some (encodeDMS lat)
    longitude := some (encodeDMS lon)
    latitudeRef := some (if lat < 0 then "S" else "N")
    longitudeRef := some (if lon < 0 then "W" else "E") }

/-- The parsed Issue Analyzer reply as a Python dict: each field is none
exactly when the key is absent (see the file header for the scope note on
null values). -/
structure Analysis where
  ward_name : Option String := none
  division_name : Option String := none
  trash_type : Option String := none
  issue_present : Option Bool := none
  is_pothole_present : Option Bool := none
  issue_type : Option String := none
  severity : Option String := none
  situation_description : Option String := none
  pothole_count : Option Nat := none
  actionable_advice : Option String := none
deriving Repr, DecidableEq

/-- The location_info dict handed to generate_email_content.  The outer
Option models key presence (every workflow call site supplies all three
keys), the inner Option a possibly-None value. -/
structure LocationInfo where
  area : Option (Option String) := none
  lat : Option (Option ℚ) := none
  lon : Option (Option ℚ) := none
deriving Repr, DecidableEq

/-- The return value of generate_email_content; toAddr models the dict key "to" (a reserved word in Lean). -/
structure EmailContent where
  subject : String
  body : String
  toAddr : String
deriving Repr, DecidableEq

/-- Stand-in for the Python textual rendering of a float; none of the
claims inspects the digits of a rendered coordinate. -/
def pyFloatRepr (q : ℚ) : String := toString q

/-- dict.get on a string-valued slot followed by f-string rendering:
an absent key renders the default, a None value renders as Python prints
None. -/
def slotRenderS (s : Option (Option String)) (d : String) : String :=
  match s with
  | none => d
  | some none => "None"
  | some (some a) => a

/-- dict.get on a float-valued slot followed by f-string rendering. -/
def slotRenderQ (s : Option (Option ℚ)) (d : String) : String :=
  match s with
  | none => d
  | some none => "None"
  | some (some q) => pyFloatRepr q

/-- generate_email_content of trash_agent.py: every assessment field is
read with dict.get and a substitution default, then spliced into one fixed
template. -/
def trash_generate_email_content (analysis_data : Analysis)
    (location_info : LocationInfo) : EmailContent :=
  let area := slotRenderS location_info.area "Unknown Area"
  let lat := slotRenderQ location_info.lat "N/A"
  let lon := slotRenderQ location_info.lon "N/A"
  let trash_type := analysis_data.trash_type.getD "Mixed waste"
  let severity := analysis_data.severity.getD "N/A"
  let description :=
    analysis_data.situation_description.getD "Trash issue reported by citizen"
  let subject :=
    "Garbage/Waste Management Issue - " ++ area ++ " (Severity: " ++ severity ++ ")"
  let body :=
    "Dear BBMP Official,\n\nI am writing to report a garbage and waste management issue requiring attention in "
    ++ area ++ ".\n\nLocation Details:\n- Area: " ++ area
    ++ "\n- Coordinates: " ++ lat ++ ", " ++ lon
    ++ "\n\nIssue Details:\n- Type of Waste: " ++ trash_type
    ++ "\n- Severity Level: " ++ severity
    ++ "\n- Description: " ++ description
    ++ "\n\nThis waste accumulation is causing inconvenience to residents and may pose health risks if not addressed promptly. Please arrange for immediate cleaning and disposal of the waste at this location.\n\nI would appreciate an acknowledgment of this report and timely action to resolve this issue.\n\nThank you for maintaining the cleanliness of our city.\n\nBest regards,\nA Concerned Citizen\n\n---\nThis report was generated through Namma City Buddy AI Assistant.\nFor technical support, contact the system administrator."
  { subject := subject, body := body, toAddr := "info@bbmp.gov.in" }

/-- generate_email_content of pothole_agent.py: two template branches on
the is_pothole_present flag (absent key defaults to the no-issue branch). -/
def pothole_generate_email_content (analysis_data : Analysis)
    (location_info : LocationInfo) : EmailContent :=
  let area := slotRenderS location_info.area "Unknown Area"
  let lat := slotRenderQ location_info.lat "N/A"
  let lon := slotRenderQ location_info.lon "N/A"
  let is_pothole := analysis_data.is_pothole_present.getD false
  let severity := analysis_data.severity.getD "N/A"
  let count :=
    match analysis_data.pothole_count with
    | none => "N/A"
    | some n => toString n
  let description :=
    analysis_data.situation_description.getD "Pothole reported by citizen"
  if is_pothole = false then
    { subject := "Road Condition Report - " ++ area
      body :=
        "Dear BBMP Official,\n\nI am writing to report a road condition concern in "
        ++ area ++ ".\n\nLocation Details:\n- Area: " ++ area
        ++ "\n- Coordinates: " ++ lat ++ ", " ++ lon
        ++ "\n\nIssue Description:\nNo significant pothole was detected in the submitted image, but I would like to bring this road condition to your attention for review.\n\nPlease investigate this location and take appropriate action if necessary.\n\nThank you for your service to our city.\n\nBest regards,\nA Concerned Citizen\n\n---\nThis report was generated through Namma City Buddy AI Assistant.\nFor technical support, contact the system administrator."
      toAddr := "info@bbmp.gov.in" }
  else
    { subject :=
        "URGENT: Pothole Report - " ++ area ++ " (Severity: " ++ severity ++ ")"
      body :=
        "Dear BBMP Official,\n\nI am writing to report a pothole issue requiring immediate attention in "
        ++ area ++ ".\n\nLocation Details:\n- Area: " ++ area
        ++ "\n- Coordinates: " ++ lat ++ ", " ++ lon
        ++ "\n\nPothole Details:\n- Number of Potholes: " ++ count
        ++ "\n- Severity Level: " ++ severity
        ++ "\n- Description: " ++ description
        ++ "\n\nThis issue poses a safety risk to commuters and requires urgent repair. Please dispatch a maintenance team to assess and fix this problem at the earliest.\n\nI would appreciate an acknowledgment of this report and an estimated timeline for resolution.\n\nThank you for your prompt attention to this matter.\n\nBest regards,\nA Concerned Citizen\n\n---\nThis report was generated through Namma City Buddy AI Assistant.\nFor technical support, contact the system administrator."
      toAddr := "info@bbmp.gov.in" }

/-- generate_email_content of electricity_agent.py: two template branches
on the issue_present flag (absent key defaults to the no-issue branch). -/
def electricity_generate_email_content (analysis_data : Analysis)
    (location_info : LocationInfo) : EmailContent :=
  let area := slotRenderS location_info.area "Unknown Area"
  let lat := slotRenderQ location_info.lat "N/A"
  let lon := slotRenderQ location_info.lon "N/A"
  let issue_present := analysis_data.issue_present.getD false
  let issue_type := analysis_data.issue_type.getD "Electrical Issue"
  let severity := analysis_data.severity.getD "N/A"
  let description :=
    analysis_data.situation_description.getD "Electrical issue reported by citizen"
  if issue_present = false then
    { subject := "Electrical Infrastructure Review - " ++ area
      body :=
        "Dear BESCOM Official,\n\nI am writing to request a review of electrical infrastructure in "
        ++ area ++ ".\n\nLocation Details:\n- Area: " ++ area
        ++ "\n- Coordinates: " ++ lat ++ ", " ++ lon
        ++ "\n\nIssue Description:\nNo specific electrical issue was detected in the submitted image, but I would like to bring this location to your attention for a routine inspection.\n\nPlease review this location and ensure all electrical infrastructure is functioning properly.\n\nThank you for maintaining our city"
        ++ quoteCh
        ++ "s electrical services.\n\nBest regards,\nA Concerned Citizen\n\n---\nThis report was generated through Bangalore Buzz AI Assistant.\nFor technical support, contact the system administrator."
      toAddr := "info@bescom.co.in" }
  else
    { subject :=
        "URGENT: " ++ issue_type ++ " Issue - " ++ area ++ " (Severity: " ++ severity ++ ")"
      body :=
        "Dear BESCOM Official,\n\nI am writing to report an urgent electrical issue requiring immediate attention in "
        ++ area ++ ".\n\nLocation Details:\n- Area: " ++ area
        ++ "\n- Coordinates: " ++ lat ++ ", " ++ lon
        ++ "\n\nIssue Details:\n- Type of Issue: " ++ issue_type
        ++ "\n- Severity Level: " ++ severity
        ++ "\n- Description: " ++ description
        ++ "\n\nThis electrical issue may pose safety risks to residents and requires urgent attention. Please dispatch a maintenance team to assess and resolve this problem at the earliest.\n\nI would appreciate an acknowledgment of this report and an estimated timeline for resolution.\n\nThank you for your prompt attention to this safety matter.\n\nBest regards,\nA Concerned Citizen\n\n---\nThis report was generated through Bangalore Buzz AI Assistant.\nFor technical support, contact the system administrator."
      toAddr := "info@bescom.co.in" }

/-- str(e) of the UnboundLocalError raised when the JSONDecodeError arm
assigns only the ward/division name, so that the later
generate_email_content call reads the never-assigned local `analysis`.
The exact wording varies across Python versions; no claim relies on it,
only on the resulting failure. -/
def unboundAnalysisMsg : String :=
  "cannot access local variable " ++ quoteCh ++ "analysis" ++ quoteCh ++
  " where it is not associated with a value"

/-- Outcome of get_trash_analysis_from_gemini and its pothole/electricity
twins.  The functions catch their own exceptions: a successful remote call
yields the cleaned reply text (code fences stripped) together with the
oracle outcome of json.loads on it (none models a JSONDecodeError); a read
or API failure makes the function return an error dict instead of a
string. -/
inductive GeminiReply where
  | text (cleaned : String) (parsed : Option Analysis)
  | errorDict
deriving Repr, DecidableEq

/-- Oracle environment of one per-category workflow: whether the agent
module imports, the outcome of configure_and_load_data, the coordinate
pair produced by get_geolocation on the uploaded image, the outcome of
get_area_from_latlon (none on any geocoding failure), and the Issue
Analyzer reply. -/
structure AgentEnv where
  importOk : Bool := true
  loadData : Except String (List OfficialRow)
  geo : Option ℚ × Option ℚ
  geoArea : Option String
  reply : GeminiReply

/-- Python truthiness of a possibly-None float: None and 0.0 are falsy. -/
def pyTruthyQ : Option ℚ → Bool
  | none => false
  | some q => q != 0

/-- Python truthiness of a possibly-None string: None and "" are falsy. -/
def pyTruthyS : Option String → Bool
  | none => false
  | some s => s != ""

/-- The result dict returned by the orchestrator and its workflows.  An
outer Option on a field models presence of the dict key; official_info,
area, lat and lon additionally carry a possibly-None inner value. -/
structure RResult where
  success : Bool
  agent_type : Option String := none
  analysis : Option String := none
  official_info : Option (Option OfficialRow) := none
  email_content : Option EmailContent := none
  area : Option (Option String) := none
  lat : Option (Option ℚ) := none
  lon : Option (Option ℚ) := none
  error : Option String := none
  message : Option String := none
  intent : Option String := none
  response : Option String := none
deriving Repr, DecidableEq

/-- Body of the try block of execute_trash_agent_workflow
(orchestrator.py).  Notable translation points:
* `if not area` uses Python truthiness, so both a failed geocode and an
  empty area string fall back to "HSR Layout";
* json.loads on the error dict raises a TypeError;
* when json.loads raises JSONDecodeError, only ward_name is assigned in
  the except arm, so the later generate_email_content call reads the
  still-unbound local `analysis` and raises an UnboundLocalError. -/
def trash_body (env : AgentEnv) : Except String RResult :=
  match env.loadData with
  | .error e => .error e
  | .ok officials_data =>
  let lat := env.geo.1
  let lon := env.geo.2
  if pyTruthyQ lat && pyTruthyQ lon then
    let area := match env.geoArea with
      | some a => if a != "" then a else "HSR Layout"
      | none => "HSR Layout"
    match env.reply with
    | .errorDict =>
      Except.error "the JSON object must be str, bytes or bytearray, not dict"
    | .text analysis_json_str parsed =>
      match parsed with
      | some analysis =>
        let ward_name := analysis.ward_name.getD area
        let official_info := find_official_for_ward officials_data ward_name
        let location_info : LocationInfo :=
          { area := some (some area), lat := some lat, lon := some lon }
        let email_content := trash_generate_email_content analysis location_info
        Except.ok
          { success := true, agent_type := some "trash",
            analysis := some analysis_json_str,
            official_info := some official_info,
            email_content := some email_content,
            area := some (some area), lat := some lat, lon := some lon }
      | none =>
        Except.error unboundAnalysisMsg
  else
    Except.ok
      { success := false, agent_type := some "trash",
        error := some "Could not retrieve geolocation data from the image." }

/-- Body of the try block of execute_pothole_agent_workflow
(orchestrator.py).  Unlike the trash workflow there is no fallback area
string, so with a failed geocode and an assessment lacking ward_name the
lookup receives None and pandas str.contains raises a TypeError. -/
def pothole_body (env : AgentEnv) : Except String RResult :=
  match env.loadData with
  | .error e => .error e
  | .ok officials_data =>
  let lat := env.geo.1
  let lon := env.geo.2
  if pyTruthyQ lat && pyTruthyQ lon then
    let area := env.geoArea
    match env.reply with
    | .errorDict =>
      Except.error "the JSON object must be str, bytes or bytearray, not dict"
    | .text analysis_json_str parsed =>
      match parsed with
      | some analysis =>
        let ward_name : Option String :=
          match analysis.ward_name with
          | some w => some w
          | none => area
        match ward_name with
        | none =>
          Except.error "first argument must be string or compiled pattern"
        | some wn =>
          let official_info := find_official_for_ward officials_data wn
          let location_info : LocationInfo :=
            { area := some area, lat := some lat, lon := some lon }
          let email_content := pothole_generate_email_content analysis location_info
          Except.ok
            { success := true, agent_type := some "pothole",
              analysis := some analysis_json_str,
              official_info := some official_info,
              email_content := some email_content,
              area := some area, lat := some lat, lon := some lon }
      | none =>
        Except.error unboundAnalysisMsg
  else
    Except.ok
      { success := false, agent_type := some "pothole",
        error := some "Could not retrieve geolocation data from the image." }

/-- Body of the try block of execute_electricity_agent_workflow
(orchestrator.py); the division analogue of the pothole body. -/
def electricity_body (env : AgentEnv) : Except String RResult :=
  match env.loadData with
  | .error e => .error e
  | .ok officials_data =>
  let lat := env.geo.1
  let lon := env.geo.2
  if pyTruthyQ lat && pyTruthyQ lon then
    let area := env.geoArea
    match env.reply with
    | .errorDict =>
      Except.error "the JSON object must be str, bytes or bytearray, not dict"
    | .text analysis_json_str parsed =>
      match parsed with
      | some analysis =>
        let division_name : Option String :=
          match analysis.division_name with
          | some d => some d
          | none => area
        match division_name with
        | none =>
          Except.error "first argument must be string or compiled pattern"
        | some dn =>
          let official_info := find_official_for_division officials_data dn
          let location_info : LocationInfo :=
            { area := some area, lat := some lat, lon := some lon }
          let email_content :=
            electricity_generate_email_content analysis location_info
          Except.ok
            { success := true, agent_type := some "electricity",
              analysis := some analysis_json_str,
              official_info := some official_info,
              email_content := some email_content,
              area := some area, lat := some lat, lon := some lon }
      | none =>
        Except.error unboundAnalysisMsg
  else
    Except.ok
      { success := false, agent_type := some "electricity",
        error := some "Could not retrieve geolocation data from the image." }

/-- The Issue Analyzer call (get_trash_analysis_from_gemini and its twins)
is reached exactly when the module import and the roster load succeed and
both extracted coordinates are truthy; this Bool marks that spot in the
workflow control flow and is paired with each workflow result below. -/
def analyzer_invoked (env : AgentEnv) : Bool :=
  env.importOk &&
  (match env.loadData with | .ok _ => true | .error _ => false) &&
  pyTruthyQ env.geo.1 && pyTruthyQ env.geo.2

/-- execute_trash_agent_workflow of orchestrator.py, paired with the
analyzer-invocation marker: an ImportError yields the module-not-found
result, any other exception is absorbed by the catch-all arm. -/
def execute_trash_agent_workflow (env : AgentEnv) : RResult × Bool :=
  if env.importOk = false then
    ({ success := false, agent_type := some "trash",
       error := some "Trash agent module not found. Please ensure trash_agent.py exists." },
     false)
  else
    match trash_body env with
    | .ok r => (r, analyzer_invoked env)
    | .error e =>
      ({ success := false, agent_type := some "trash",
         error := some ("Workflow execution failed: " ++ e) },
       analyzer_invoked env)

/-- execute_pothole_agent_workflow of orchestrator.py. -/
def execute_pothole_agent_workflow (env : AgentEnv) : RResult × Bool :=
  if env.importOk = false then
    ({ success := false, agent_type := some "pothole",
       error := some "Pothole agent module not found. Please ensure pothole_agent.py exists." },
     false)
  else
    match pothole_body env with
    | .ok r => (r, analyzer_invoked env)
    | .error e =>
      ({ success := false, agent_type := some "pothole",
         error := some ("Workflow execution failed: " ++ e) },
       analyzer_invoked env)

/-- execute_electricity_agent_workflow of orchestrator.py. -/
def execute_electricity_agent_workflow (env : AgentEnv) : RResult × Bool :=
  if env.importOk = false then
    ({ success := false, agent_type := some "electricity",
       error := some "Electricity agent module not found. Please ensure electricity_agent.py exists." },
     false)
  else
    match electricity_body env with
    | .ok r => (r, analyzer_invoked env)
    | .error e =>
      ({ success := false, agent_type := some "electricity",
         error := some ("Workflow execution failed: " ++ e) },
       analyzer_invoked env)

/-- Oracle environment of one orchestrator request: the intent-detection
reply, one workflow environment per category, and the outcomes of the
events search and of the general-question reply.  The internals of the
events search (events_agent.py) are outside the scope of the claims and
enter only through their outcome. -/
structure OrchEnv where
  intentReply : Except String String
  trashEnv : AgentEnv
  potholeEnv : AgentEnv
  electricityEnv : AgentEnv
  eventsImportOk : Bool := true
  eventsOutcome : Except String RResult
  generalReply : Except String String

/-- get_user_intent of orchestrator.py: the model reply is stripped and
lower-cased and used verbatim; any exception from the call maps to
general_question. -/
def get_user_intent (env : OrchEnv) (_user_query : String) : String :=
  match env.intentReply with
  | .ok s => lowerStr (pyStrip s)
  | .error _ => "general_question"

/-- execute_events_agent_workflow of orchestrator.py, with the search body
abstracted as its outcome. -/
def execute_events_agent_workflow (env : OrchEnv) : RResult :=
  if env.eventsImportOk = false then
    { success := false, agent_type := some "events",
      error := some "Events agent module not found. Please ensure events_agent.py exists." }
  else
    match env.eventsOutcome with
    | .ok r => r
    | .error e =>
      { success := false, agent_type := some "events",
        error := some ("Workflow execution failed: " ++ e) }

/-- handle_general_question of orchestrator.py. -/
def handle_general_question (env : OrchEnv) (_user_query : String) : RResult :=
  match env.generalReply with
  | .ok s =>
    { success := true, agent_type := some "general", response := some (pyStrip s) }
  | .error e =>
    { success := false, agent_type := some "general",
      error := some ("Failed to generate response: " ++ e) }

/-- Body of the try block of process_request (orchestrator.py): classify
the intent and dispatch.  The three image categories require a truthy
image path before their workflow is invoked; unrecognized intents fall to
the general-question arm. -/
def process_request_body (env : OrchEnv) (user_query : String)
    (image_path : Option String) : Except String RResult :=
  let intent := get_user_intent env user_query
  if intent = "report_trash" then
    if pyTruthyS image_path = false then
      Except.ok
        { success := false,
          error := some "Image required for trash reporting", intent := some intent }
    else
      Except.ok (execute_trash_agent_workflow env.trashEnv).1
  else if intent = "report_pothole" then
    if pyTruthyS image_path = false then
      Except.ok
        { success := false,
          error := some "Image required for pothole reporting", intent := some intent }
    else
      Except.ok (execute_pothole_agent_workflow env.potholeEnv).1
  else if intent = "report_electricity" then
    if pyTruthyS image_path = false then
      Except.ok
        { success := false,
          error := some "Image required for electricity reporting",
          intent := some intent }
    else
      Except.ok (execute_electricity_agent_workflow env.electricityEnv).1
  else if intent = "find_events" then
    Except.ok (execute_events_agent_workflow env)
  else if intent = "check_traffic" then
    Except.ok
      { success := false, agent_type := some "traffic",
        error := some "Traffic Agent is currently under development",
        message := some "Coming soon: Real-time traffic updates, route optimization, and road conditions!",
        intent := some intent }
  else
    Except.ok (handle_general_question env user_query)

/-- process_request of orchestrator.py: the body wrapped in the boundary
catch-all that converts any exception into a failure result carrying the
exception text. -/
def process_request (env : OrchEnv) (user_query : String)
    (image_path : Option String) : RResult :=
  match process_request_body env user_query image_path with
  | .ok r => r
  | .error e =>
    { success := false, error := some ("Orchestration failed: " ++ e),
      intent := some "unknown" }

/-! Concrete fixtures for the scenario theorems below: a sample roster
row, a parsed scenario assessment, and oracle environments exercising
specific pipeline paths. -/

/-- A BESCOM roster row with a usable phone number. -/
def bescomRow : OfficialRow :=
  { department := some "BESCOM (Division)", area := some "Indiranagar",
    name := some "Engineer B", designation := some "Executive Engineer",
    phone := some "080-22294411" }

/-- The parsed Issue Analyzer reply of spec Scenario A. -/
def scenarioAAnalysis : Analysis :=
  { issue_present := some true, division_name := some "Indiranagar",
    issue_type := some "Street Light", severity := some "Medium",
    situation_description := some "Street light pole is damaged and not functioning.",
    actionable_advice := some "This should be reported to BESCOM immediately for safety reasons." }

/-- Scenario A environment: the coordinate pair decoding 12.9719 N,
77.6413 E, and a well-formed Issue Analyzer reply. -/
def scenarioAEnv : AgentEnv :=
  { importOk := true, loadData := Except.ok [bescomRow],
    geo := (some (129719/10000), some (776413/10000)),
    geoArea := some "Indiranagar",
    reply := GeminiReply.text
      "\x7b\x22issue_present\x22: true, \x22issue_type\x22: \x22Street Light\x22, \x22severity\x22: \x22Medium\x22\x7d"
      (some scenarioAAnalysis) }

/-- Scenario C environment: geolocation succeeds and the Issue Analyzer
returns prose, so json.loads raises a JSONDecodeError. -/
def proseReplyEnv : AgentEnv :=
  { importOk := true, loadData := Except.ok [],
    geo := (some 13, some 78), geoArea := some "HSR Layout",
    reply := GeminiReply.text
      "It appears to be a large pile of mixed municipal waste on the roadside."
      none }

/-- An environment whose extracted latitude is exactly zero. -/
def zeroLatEnv : AgentEnv :=
  { importOk := true, loadData := Except.ok [],
    geo := (some 0, some 78), geoArea := some "HSR Layout",
    reply := GeminiReply.text "ok" (some {}) }

/-- An environment with no extracted coordinate at all. -/
def noGeoEnv : AgentEnv :=
  { importOk := true, loadData := Except.ok [],
    geo := (none, none), geoArea := none, reply := GeminiReply.errorDict }

/-- An environment for a fully successful trash run, with integer-valued
coordinates. -/
def okTrashEnv : AgentEnv :=
  { importOk := true, loadData := Except.ok [],
    geo := (some 13, some 78), geoArea := some "HSR Layout",
    reply := GeminiReply.text "\x7b\x22ward_name\x22: \x22HSR Layout\x22\x7d"
      (some { ward_name := some "HSR Layout" }) }

/-- An orchestrator environment routed to the trash pipeline whose roster
load raises. -/
def loadFailOrchEnv : OrchEnv :=
  { intentReply := Except.ok "report_trash",
    trashEnv := { importOk := true, loadData := Except.error "boom",
                  geo := (some 13, some 78), geoArea := none,
                  reply := GeminiReply.errorDict },
    potholeEnv := noGeoEnv, electricityEnv := noGeoEnv,
    eventsOutcome := Except.ok { success := true },
    generalReply := Except.ok "hello" }

/-- A location dict whose coordinate values are both None. -/
def nullCoordLoc : LocationInfo :=
  { area := some (some "HSR Layout"), lat := some none, lon := some none }

/-! Helper lemmas about first-match filtering, shared by the roster
claims. -/

theorem headFilterSat {α : Type} (p : α → Bool) (l : List α) (r : α)
    (h : (l.filter p).head? = some r) : p r = true ∧ r ∈ l := by
  induction l with
  | nil => simp at h
  | cons a t ih =>
    rw [List.filter_cons] at h
    by_cases hp : p a = true
    · rw [if_pos hp] at h
      simp only [List.head?_cons, Option.some.injEq] at h
      subst h
      exact ⟨hp, List.mem_cons_self a t⟩
    · rw [if_neg hp] at h
      rcases ih h with ⟨h1, h2⟩
      exact ⟨h1, List.mem_cons_of_mem a h2⟩

theorem headFilterNone {α : Type} (p : α → Bool) (l : List α)
    (h : ∀ x ∈ l, p x = false) : (l.filter p).head? = none := by
  have hnil : l.filter p = [] := by
    rw [List.filter_eq_nil_iff]
    intro a ha
    simp [h a ha]
  rw [hnil]
  rfl

theorem headFilterFirst {α : Type} (p : α → Bool) (l1 l2 : List α) (r : α)
    (h1 : ∀ x ∈ l1, p x = false) (hr : p r = true) :
    ((l1 ++ r :: l2).filter p).head? = some r := by
  induction l1 with
  | nil => simp [List.filter_cons, hr]
  | cons a t ih =>
    have ha : p a = false := h1 a (List.mem_cons_self a t)
    rw [List.cons_append, List.filter_cons, if_neg (by simp [ha])]
    exact ih (fun x hx => h1 x (List.mem_cons_of_mem a hx))

/-- Case-insensitive prefix matching of an all-literal token list is
exactly case-insensitive character-prefix matching. -/
theorem reMatchHere_lit (pcs : List Char) : ∀ cs : List Char,
    reMatchHere (pcs.map ReTok.lit) cs
      = chPre (pcs.map Char.toLower) (cs.map Char.toLower) := by
  induction pcs with
  | nil => intro cs; cases cs <;> rfl
  | cons p ps ih =>
    intro cs
    cases cs with
    | nil => rfl
    | cons c cs' =>
      simp [reMatchHere, chPre, reTokMatch, ih cs']

/-- Searching an all-literal token list is exactly case-insensitive
substring containment. -/
theorem reSearch_lit (pcs cs : List Char) :
    reSearch (pcs.map ReTok.lit) cs
      = chSub (pcs.map Char.toLower) (cs.map Char.toLower) := by
  induction cs with
  | nil => simp [reSearch, chSub, reMatchHere_lit]
  | cons c cs' ih =>
    simp [reSearch, chSub, reMatchHere_lit, ih]

/-- C2 counterexample: the locator name is compiled as a regular
expression, not used as a literal substring — the pattern k.ramangala
(dot wildcard) selects a row whose area Koramangala does not contain the
locator as a substring — and the trash/pothole lookup moreover selects a
row whose phone cell is the empty string; so both the substring wording
and the phone requirement of the claim fail on the code. -/
theorem c2_counterexample :
    find_official_for_ward_re
      [{ department := some "BBMP (Ward)", area := some "Koramangala",
         name := some "Officer A", designation := some "Nodal Officer",
         phone := some "" }] "k.ramangala"
      = some (Except.ok (some
          { department := some "BBMP (Ward)", area := some "Koramangala",
            name := some "Officer A", designation := some "Nodal Officer",
            phone := some "" })) ∧
    containsCI "Koramangala" "k.ramangala" = false ∧
    (some "" : Option String) =
      (({ department := some "BBMP (Ward)", area := some "Koramangala",
          name := some "Officer A", designation := some "Nodal Officer",
          phone := some "" } : OfficialRow)).phone := by
  refine ⟨rfl, by decide, rfl⟩

/-- C2 (amended): under the pandas semantics a row is selected only if
its department field equals the expected tag exactly and the locator
name, compiled as a case-insensitive regular expression, matches inside
the area cell; on locator names free of regex metacharacters that regex
search is exactly case-insensitive substring containment.  The
non-empty-phone requirement belongs to the electricity lookup, not to the
trash/pothole one. -/
theorem c2_roster_match (df : List OfficialRow) (nm : String)
    (toks : List ReTok) (r : OfficialRow)
    (hparse : reParsePattern nm = ReParse.parsed toks) :
    (find_official_for_ward_re df nm = some (Except.ok (some r)) →
      r.department = some "BBMP (Ward)" ∧
      ∃ a, r.area = some a ∧ reSearch toks a.data = true) ∧
    (find_official_for_division_re df nm = some (Except.ok (some r)) →
      r.department = some "BESCOM (Division)" ∧
      (∃ a, r.area = some a ∧ reSearch toks a.data = true) ∧
      r.phone ≠ none ∧ r.phone ≠ some "") ∧
    (nm.data.all (fun c => !(isReMeta c) && c != '.') = true →
      ∀ a, reSearch toks a.data = containsCI a nm) := by
  refine ⟨?_, ?_, ?_⟩
  · intro h
    unfold find_official_for_ward_re at h
    rw [hparse] at h
    simp only [Option.some.injEq, Except.ok.injEq] at h
    have hm := (headFilterSat (trashRowMatchRe toks) df r h).1
    unfold trashRowMatchRe at hm
    rw [Bool.and_eq_true] at hm
    obtain ⟨h1, h2⟩ := hm
    refine ⟨by simpa using h1, ?_⟩
    cases ha : r.area with
    | none => rw [ha] at h2; simp at h2
    | some a => rw [ha] at h2; exact ⟨a, rfl, h2⟩
  · intro h
    unfold find_official_for_division_re at h
    rw [hparse] at h
    simp only [Option.some.injEq, Except.ok.injEq] at h
    have hm := (headFilterSat (divisionRowMatchRe toks) df r h).1
    unfold divisionRowMatchRe at hm
    simp only [Bool.and_eq_true] at hm
    obtain ⟨⟨⟨h1, h2⟩, h3⟩, h4⟩ := hm
    refine ⟨by simpa using h1, ?_, ?_, ?_⟩
    · cases ha : r.area with
      | none => rw [ha] at h2; simp at h2
      | some a => rw [ha] at h2; exact ⟨a, rfl, h2⟩
    · cases hp : r.phone with
      | none => rw [hp] at h3; simp at h3
      | some p => simp [hp]
    · cases hp : r.phone with
      | none => simp [hp]
      | some p =>
        rw [hp] at h4
        simp only [bne_iff_ne, ne_eq] at h4
        simp [hp, h4]
  · intro hlit a
    have hall := List.all_eq_true.mp hlit
    have h1 : nm.data.all (fun c => !(isReMeta c)) = true := by
      rw [List.all_eq_true]
      intro c hc
      have h2 := hall c hc
      rw [Bool.and_eq_true] at h2
      exact h2.1
    have htoks : toks = nm.data.map ReTok.lit := by
      have hred : reParsePattern nm = ReParse.parsed
          (nm.data.map (fun c => if c == '.' then ReTok.anyChar else ReTok.lit c)) := by
        simp only [reParsePattern]
        rw [if_pos h1]
      rw [hred] at hparse
      injection hparse with h
      rw [← h]
      refine List.map_congr_left ?_
      intro c hc
      have h2 := hall c hc
      rw [Bool.and_eq_true] at h2
      have hdot : (c == '.') = false := by simpa using h2.2
      simp [hdot]
    rw [htoks, reSearch_lit]
    rfl

/-- C2 witness: both implications and the literal-pattern coincidence
applied at one-row rosters with metacharacter-free locators. -/
theorem c2_roster_match_witness :
    ((some "BBMP (Ward)" : Option String) = some "BBMP (Ward)" ∧
      ∃ a, (some "HSR Layout" : Option String) = some a ∧
        reSearch ("hsr".data.map ReTok.lit) a.data = true) ∧
    ((some "BESCOM (Division)" : Option String) = some "BESCOM (Division)" ∧
      (∃ a, (some "Indiranagar" : Option String) = some a ∧
        reSearch ("indira".data.map ReTok.lit) a.data = true) ∧
      (some "080-1234" : Option String) ≠ none ∧
      (some "080-1234" : Option String) ≠ some "") ∧
    (∀ a, reSearch ("hsr".data.map ReTok.lit) a.data = containsCI a "hsr") := by
  refine ⟨?_, ?_, ?_⟩
  · exact (c2_roster_match
      [{ department := some "BBMP (Ward)", area := some "HSR Layout",
         name := some "Officer A", designation := some "Nodal Officer",
         phone := some "" }] "hsr" ("hsr".data.map ReTok.lit)
      { department := some "BBMP (Ward)", area := some "HSR Layout",
        name := some "Officer A", designation := some "Nodal Officer",
        phone := some "" } (by decide)).1 rfl
  · exact (c2_roster_match
      [{ department := some "BESCOM (Division)", area := some "Indiranagar",
         name := some "Engineer B", designation := some "Executive Engineer",
         phone := some "080-1234" }] "indira" ("indira".data.map ReTok.lit)
      { department := some "BESCOM (Division)", area := some "Indiranagar",
        name := some "Engineer B", designation := some "Executive Engineer",
        phone := some "080-1234" } (by decide)).2.1 rfl
  · exact (c2_roster_match [] "hsr" ("hsr".data.map ReTok.lit)
      { department := none, area := none, name := none, designation := none,
        phone := none } (by decide)).2.2 (by decide)

/-- C5 counterexample: a locator name that is an invalid regular
expression (an unbalanced parenthesis) makes both roster lookups raise
re.error when pandas compiles the pattern, instead of returning null,
refuting the never-raises part of the claim.  The statement tests only
that an exception comes out, not its text. -/
theorem c5_counterexample :
    (match find_official_for_ward_re
      [{ department := some "BBMP (Ward)", area := some "HSR Layout",
         name := some "A", designation := some "NO", phone := some "2" }] "(" with
     | some (Except.error _) => true
     | _ => false) = true ∧
    (match find_official_for_division_re [] "(" with
     | some (Except.error _) => true
     | _ => false) = true := by
  exact ⟨rfl, rfl⟩

/-- C5 (amended): for every locator name inside the modelled pattern
subset, a lookup matching zero rows returns null without raising and a
lookup matching several rows deterministically returns the first matching
row in storage order, for both the trash/pothole and the electricity
lookups; a locator name that is an invalid regular expression makes the
lookup raise re.error, which the calling workflows absorb. -/
theorem c5_lookup_order (df : List OfficialRow) (nm : String) :
    (∀ toks, reParsePattern nm = ReParse.parsed toks →
      ((∀ r ∈ df, trashRowMatchRe toks r = false) →
        find_official_for_ward_re df nm = some (Except.ok none)) ∧
      (∀ l1 r l2, df = l1 ++ r :: l2 → trashRowMatchRe toks r = true →
        (∀ x ∈ l1, trashRowMatchRe toks x = false) →
        find_official_for_ward_re df nm = some (Except.ok (some r))) ∧
      ((∀ r ∈ df, divisionRowMatchRe toks r = false) →
        find_official_for_division_re df nm = some (Except.ok none)) ∧
      (∀ l1 r l2, df = l1 ++ r :: l2 → divisionRowMatchRe toks r = true →
        (∀ x ∈ l1, divisionRowMatchRe toks x = false) →
        find_official_for_division_re df nm = some (Except.ok (some r)))) ∧
    (∀ msg, reParsePattern nm = ReParse.invalid msg →
      find_official_for_ward_re df nm = some (Except.error msg) ∧
      find_official_for_division_re df nm = some (Except.error msg)) := by
  constructor
  · intro toks hparse
    refine ⟨?_, ?_, ?_, ?_⟩
    · intro h
      unfold find_official_for_ward_re
      rw [hparse]
      show some (Except.ok ((df.filter (trashRowMatchRe toks)).head?))
        = some (Except.ok none)
      rw [headFilterNone (trashRowMatchRe toks) df h]
    · intro l1 r l2 hdf hr h1
      unfold find_official_for_ward_re
      rw [hparse]
      show some (Except.ok ((df.filter (trashRowMatchRe toks)).head?))
        = some (Except.ok (some r))
      rw [hdf, headFilterFirst (trashRowMatchRe toks) l1 l2 r h1 hr]
    · intro h
      unfold find_official_for_division_re
      rw [hparse]
      show some (Except.ok ((df.filter (divisionRowMatchRe toks)).head?))
        = some (Except.ok none)
      rw [headFilterNone (divisionRowMatchRe toks) df h]
    · intro l1 r l2 hdf hr h1
      unfold find_official_for_division_re
      rw [hparse]
      show some (Except.ok ((df.filter (divisionRowMatchRe toks)).head?))
        = some (Except.ok (some r))
      rw [hdf, headFilterFirst (divisionRowMatchRe toks) l1 l2 r h1 hr]
  · intro msg hinv
    unfold find_official_for_ward_re find_official_for_division_re
    rw [hinv]
    exact ⟨rfl, rfl⟩

/-- C5 witness: on a three-row roster whose second and third rows match a
metacharacter-free locator, the lookup returns the second row; a roster
with no matching row returns null. -/
theorem c5_lookup_order_witness :
    find_official_for_ward_re
      [{ department := some "BESCOM (Division)", area := some "HSR Layout",
         name := some "E", designation := some "EE", phone := some "1" },
       { department := some "BBMP (Ward)", area := some "HSR Layout",
         name := some "A", designation := some "NO", phone := some "2" },
       { department := some "BBMP (Ward)", area := some "HSR Layout Ward 174",
         name := some "B", designation := some "NO", phone := some "3" }] "hsr"
      = some (Except.ok (some
          { department := some "BBMP (Ward)", area := some "HSR Layout",
            name := some "A", designation := some "NO", phone := some "2" })) ∧
    find_official_for_division_re
      [{ department := some "BBMP (Ward)", area := some "HSR Layout",
         name := some "A", designation := some "NO", phone := some "2" }] "hsr"
      = some (Except.ok none) := by
  constructor
  · exact ((c5_lookup_order _ "hsr").1 ("hsr".data.map ReTok.lit) (by decide)).2.1
      [{ department := some "BESCOM (Division)", area := some "HSR Layout",
         name := some "E", designation := some "EE", phone := some "1" }]
      { department := some "BBMP (Ward)", area := some "HSR Layout",
        name := some "A", designation := some "NO", phone := some "2" }
      [{ department := some "BBMP (Ward)", area := some "HSR Layout Ward 174",
         name := some "B", designation := some "NO", phone := some "3" }]
      rfl (by decide) (by decide)
  · exact ((c5_lookup_order _ "hsr").1 ("hsr".data.map ReTok.lit) (by decide)).2.2.1
      (by decide)

/-- The decimal conversion of get_geolocation on a well-formed GPSInfo
block, with the sign flip expressed as a factor. -/
theorem gps_decode_formula (info : GpsInfo) (ld lm ls nd nm ns : ℚ)
    (hlat : info.latitude = some (ld, lm, ls))
    (hlon : info.longitude = some (nd, nm, ns)) :
    get_geolocation (.gps info) =
      (some ((if info.latitudeRef == some "S" then -1 else 1) *
              dmsToDecimal ld lm ls),
       some ((if info.longitudeRef == some "W" then -1 else 1) *
              dmsToDecimal nd nm ns)) := by
  simp only [get_geolocation, hlat, hlon]
  by_cases h1 : info.latitudeRef == some "S" <;>
    by_cases h2 : info.longitudeRef == some "W" <;>
      simp [h1, h2, neg_one_mul, one_mul]

/-- Decoding the spec-modelled DMS encoding recovers the absolute value
exactly (the arithmetic is exact over the rationals). -/
theorem encodeDMS_decodes (x : ℚ) :
    dmsToDecimal (encodeDMS x).1 (encodeDMS x).2.1 (encodeDMS x).2.2 = |x| := by
  simp only [encodeDMS, dmsToDecimal]
  ring

/-- C7: on any well-formed degree/minute/second tag set the extractor
computes deg + min / 60 + sec / 3600, negated exactly for a South latitude
reference and a West longitude reference; and decoding the inverse DMS
encoding of any decimal coordinate pair recovers it exactly (rational
arithmetic, so the floating-point tolerance is met with slack zero). -/
theorem c7_dms_conversion :
    (∀ (info : GpsInfo) (ld lm ls nd nm ns : ℚ),
      info.latitude = some (ld, lm, ls) →
      info.longitude = some (nd, nm, ns) →
      get_geolocation (.gps info) =
        (some ((if info.latitudeRef == some "S" then -1 else 1) *
                (ld + lm / 60 + ls / 3600)),
         some ((if info.longitudeRef == some "W" then -1 else 1) *
                (nd + nm / 60 + ns / 3600)))) ∧
    (∀ lat lon : ℚ,
      get_geolocation (.gps (encodeExif lat lon)) = (some lat, some lon)) := by
  constructor
  · intro info ld lm ls nd nm ns hlat hlon
    simpa [dmsToDecimal] using gps_decode_formula info ld lm ls nd nm ns hlat hlon
  · intro lat lon
    have hdec := gps_decode_formula (encodeExif lat lon)
      (encodeDMS lat).1 (encodeDMS lat).2.1 (encodeDMS lat).2.2
      (encodeDMS lon).1 (encodeDMS lon).2.1 (encodeDMS lon).2.2 rfl rfl
    rw [encodeDMS_decodes lat, encodeDMS_decodes lon] at hdec
    rw [hdec]
    have hrefLat : (encodeExif lat lon).latitudeRef
        = some (if lat < 0 then "S" else "N") := rfl
    have hrefLon : (encodeExif lat lon).longitudeRef
        = some (if lon < 0 then "W" else "E") := rfl
    rw [hrefLat, hrefLon]
    rcases lt_or_le lat 0 with h1 | h1 <;> rcases lt_or_le lon 0 with h2 | h2
    · rw [if_pos h1, if_pos h2]
      simp [abs_of_neg h1, abs_of_neg h2]
    · rw [if_pos h1, if_neg (not_lt.mpr h2)]
      simp [abs_of_neg h1, abs_of_nonneg h2]
    · rw [if_neg (not_lt.mpr h1), if_pos h2]
      simp [abs_of_nonneg h1, abs_of_neg h2]
    · rw [if_neg (not_lt.mpr h1), if_neg (not_lt.mpr h2)]
      simp [abs_of_nonneg h1, abs_of_nonneg h2]

/-- C7 witness: the conversion applied to the Bengaluru coordinates used
by the spec scenarios. -/
theorem c7_dms_conversion_witness :
    get_geolocation
      (.gps
        { latitude := some (12, 58, 471/25),
          longitude := some (77, 38, 717/25),
          latitudeRef := some "N", longitudeRef := some "E" })
      = (some (129719/10000), some (776413/10000)) := by
  have h := c7_dms_conversion.1
    { latitude := some (12, 58, 471/25), longitude := some (77, 38, 717/25),
      latitudeRef := some "N", longitudeRef := some "E" }
    12 58 (471/25) 77 38 (717/25) rfl rfl
  rw [h]
  norm_num
  exact ⟨by decide, by decide⟩

/-- C8: on an image without GPS metadata, on any malformed tag set (whose
traversal raises and is absorbed by the catch-all) and on a tag set with
either DMS triple missing, the extractor returns the no-coordinate pair;
as a total function it raises nothing. -/
theorem c8_no_gps (info : GpsInfo) :
    get_geolocation .noExif = (none, none) ∧
    get_geolocation .malformed = (none, none) ∧
    (info.latitude = none ∨ info.longitude = none →
      get_geolocation (.gps info) = (none, none)) := by
  refine ⟨rfl, rfl, ?_⟩
  intro h
  rcases h with h | h
  · cases hl : info.longitude <;> simp [get_geolocation, h, hl]
  · cases hl : info.latitude with
    | none => simp [get_geolocation, h, hl]
    | some v =>
      rcases v with ⟨a, b, c⟩
      simp [get_geolocation, h, hl]

/-- C8 witness: a tag set with the latitude triple missing decodes to the
no-coordinate pair. -/
theorem c8_no_gps_witness :
    get_geolocation
      (.gps
        { latitude := none, longitude := some (77, 38, 717/25),
          latitudeRef := some "N", longitudeRef := some "E" }) = (none, none) :=
  (c8_no_gps
    { latitude := none, longitude := some (77, 38, 717/25),
      latitudeRef := some "N", longitudeRef := some "E" }).2.2 (Or.inl rfl)

/-! Helper lemmas about the per-category workflows, shared by the
orchestrator claims. -/

theorem trash_geo_fail (env : AgentEnv) (df : List OfficialRow)
    (himp : env.importOk = true) (hld : env.loadData = Except.ok df)
    (hgeo : (pyTruthyQ env.geo.1 && pyTruthyQ env.geo.2) = false) :
    execute_trash_agent_workflow env =
      ({ success := false, agent_type := some "trash",
         error := some "Could not retrieve geolocation data from the image." },
       false) := by
  have hb : trash_body env = Except.ok
      { success := false, agent_type := some "trash",
        error := some "Could not retrieve geolocation data from the image." } := by
    unfold trash_body
    rw [hld]
    simp [hgeo]
  have hi : analyzer_invoked env = false := by
    unfold analyzer_invoked
    cases h1 : pyTruthyQ env.geo.1 <;> cases h2 : pyTruthyQ env.geo.2 <;>
      simp_all
  unfold execute_trash_agent_workflow
  rw [himp, hb, hi]
  simp

theorem pothole_geo_fail (env : AgentEnv) (df : List OfficialRow)
    (himp : env.importOk = true) (hld : env.loadData = Except.ok df)
    (hgeo : (pyTruthyQ env.geo.1 && pyTruthyQ env.geo.2) = false) :
    execute_pothole_agent_workflow env =
      ({ success := false, agent_type := some "pothole",
         error := some "Could not retrieve geolocation data from the image." },
       false) := by
  have hb : pothole_body env = Except.ok
      { success := false, agent_type := some "pothole",
        error := some "Could not retrieve geolocation data from the image." } := by
    unfold pothole_body
    rw [hld]
    simp [hgeo]
  have hi : analyzer_invoked env = false := by
    unfold analyzer_invoked
    cases h1 : pyTruthyQ env.geo.1 <;> cases h2 : pyTruthyQ env.geo.2 <;>
      simp_all
  unfold execute_pothole_agent_workflow
  rw [himp, hb, hi]
  simp

theorem electricity_geo_fail (env : AgentEnv) (df : List OfficialRow)
    (himp : env.importOk = true) (hld : env.loadData = Except.ok df)
    (hgeo : (pyTruthyQ env.geo.1 && pyTruthyQ env.geo.2) = false) :
    execute_electricity_agent_workflow env =
      ({ success := false, agent_type := some "electricity",
         error := some "Could not retrieve geolocation data from the image." },
       false) := by
  have hb : electricity_body env = Except.ok
      { success := false, agent_type := some "electricity",
        error := some "Could not retrieve geolocation data from the image." } := by
    unfold electricity_body
    rw [hld]
    simp [hgeo]
  have hi : analyzer_invoked env = false := by
    unfold analyzer_invoked
    cases h1 : pyTruthyQ env.geo.1 <;> cases h2 : pyTruthyQ env.geo.2 <;>
      simp_all
  unfold execute_electricity_agent_workflow
  rw [himp, hb, hi]
  simp

theorem trash_success_coords (env : AgentEnv) (r : RResult) (b : Bool)
    (hw : execute_trash_agent_workflow env = (r, b)) (hs : r.success = true) :
    (∃ q, r.lat = some (some q)) ∧ (∃ q, r.lon = some (some q)) := by
  unfold execute_trash_agent_workflow at hw
  split at hw
  · rw [Prod.mk.injEq] at hw
    rw [← hw.1] at hs
    simp at hs
  · split at hw
    · rename_i r' heq
      rw [Prod.mk.injEq] at hw
      rw [← hw.1] at hs ⊢
      simp only [trash_body] at heq
      repeat' split at heq
      all_goals
        first
        | exact Except.noConfusion heq
        | injection heq with heq
      all_goals rw [← heq] at hs ⊢
      all_goals
        first
        | exact absurd hs Bool.false_ne_true
        | (have hc := ‹(pyTruthyQ env.geo.1 && pyTruthyQ env.geo.2) = true›
           rw [Bool.and_eq_true] at hc
           refine ⟨?_, ?_⟩
           · cases hg : env.geo.1 with
             | none => rw [hg] at hc; simp [pyTruthyQ] at hc
             | some q => exact ⟨q, by simp [hg]⟩
           · cases hg : env.geo.2 with
             | none => rw [hg] at hc; simp [pyTruthyQ] at hc
             | some q => exact ⟨q, by simp [hg]⟩)
    · rename_i e heq
      rw [Prod.mk.injEq] at hw
      rw [← hw.1] at hs
      simp at hs

theorem pothole_success_coords (env : AgentEnv) (r : RResult) (b : Bool)
    (hw : execute_pothole_agent_workflow env = (r, b)) (hs : r.success = true) :
    (∃ q, r.lat = some (some q)) ∧ (∃ q, r.lon = some (some q)) := by
  unfold execute_pothole_agent_workflow at hw
  split at hw
  · rw [Prod.mk.injEq] at hw
    rw [← hw.1] at hs
    simp at hs
  · split at hw
    · rename_i r' heq
      rw [Prod.mk.injEq] at hw
      rw [← hw.1] at hs ⊢
      simp only [pothole_body] at heq
      repeat' split at heq
      all_goals
        first
        | exact Except.noConfusion heq
        | injection heq with heq
      all_goals rw [← heq] at hs ⊢
      all_goals
        first
        | exact absurd hs Bool.false_ne_true
        | (have hc := ‹(pyTruthyQ env.geo.1 && pyTruthyQ env.geo.2) = true›
           rw [Bool.and_eq_true] at hc
           refine ⟨?_, ?_⟩
           · cases hg : env.geo.1 with
             | none => rw [hg] at hc; simp [pyTruthyQ] at hc
             | some q => exact ⟨q, by simp [hg]⟩
           · cases hg : env.geo.2 with
             | none => rw [hg] at hc; simp [pyTruthyQ] at hc
             | some q => exact ⟨q, by simp [hg]⟩)
    · rename_i e heq
      rw [Prod.mk.injEq] at hw
      rw [← hw.1] at hs
      simp at hs

theorem electricity_success_coords (env : AgentEnv) (r : RResult) (b : Bool)
    (hw : execute_electricity_agent_workflow env = (r, b)) (hs : r.success = true) :
    (∃ q, r.lat = some (some q)) ∧ (∃ q, r.lon = some (some q)) := by
  unfold execute_electricity_agent_workflow at hw
  split at hw
  · rw [Prod.mk.injEq] at hw
    rw [← hw.1] at hs
    simp at hs
  · split at hw
    · rename_i r' heq
      rw [Prod.mk.injEq] at hw
      rw [← hw.1] at hs ⊢
      simp only [electricity_body] at heq
      repeat' split at heq
      all_goals
        first
        | exact Except.noConfusion heq
        | injection heq with heq
      all_goals rw [← heq] at hs ⊢
      all_goals
        first
        | exact absurd hs Bool.false_ne_true
        | (have hc := ‹(pyTruthyQ env.geo.1 && pyTruthyQ env.geo.2) = true›
           rw [Bool.and_eq_true] at hc
           refine ⟨?_, ?_⟩
           · cases hg : env.geo.1 with
             | none => rw [hg] at hc; simp [pyTruthyQ] at hc
             | some q => exact ⟨q, by simp [hg]⟩
           · cases hg : env.geo.2 with
             | none => rw [hg] at hc; simp [pyTruthyQ] at hc
             | some q => exact ⟨q, by simp [hg]⟩)
    · rename_i e heq
      rw [Prod.mk.injEq] at hw
      rw [← hw.1] at hs
      simp at hs

theorem trash_no_coord (env : AgentEnv)
    (hgeo : pyTruthyQ env.geo.1 = false ∨ pyTruthyQ env.geo.2 = false) :
    (execute_trash_agent_workflow env).1.success = false ∧
    (execute_trash_agent_workflow env).2 = false := by
  have hband : (pyTruthyQ env.geo.1 && pyTruthyQ env.geo.2) = false := by
    rcases hgeo with h | h <;> simp [h]
  have hi : analyzer_invoked env = false := by
    unfold analyzer_invoked
    cases h1 : pyTruthyQ env.geo.1 <;> cases h2 : pyTruthyQ env.geo.2 <;> simp_all
  cases himp : env.importOk with
  | false =>
    unfold execute_trash_agent_workflow
    rw [himp]
    simp
  | true =>
    cases hld : env.loadData with
    | error e =>
      have hb : trash_body env = Except.error e := by
        unfold trash_body
        rw [hld]
      unfold execute_trash_agent_workflow
      rw [himp, hb, hi]
      simp
    | ok df =>
      rw [trash_geo_fail env df himp hld hband]
      exact ⟨rfl, rfl⟩

theorem pothole_no_coord (env : AgentEnv)
    (hgeo : pyTruthyQ env.geo.1 = false ∨ pyTruthyQ env.geo.2 = false) :
    (execute_pothole_agent_workflow env).1.success = false ∧
    (execute_pothole_agent_workflow env).2 = false := by
  have hband : (pyTruthyQ env.geo.1 && pyTruthyQ env.geo.2) = false := by
    rcases hgeo with h | h <;> simp [h]
  have hi : analyzer_invoked env = false := by
    unfold analyzer_invoked
    cases h1 : pyTruthyQ env.geo.1 <;> cases h2 : pyTruthyQ env.geo.2 <;> simp_all
  cases himp : env.importOk with
  | false =>
    unfold execute_pothole_agent_workflow
    rw [himp]
    simp
  | true =>
    cases hld : env.loadData with
    | error e =>
      have hb : pothole_body env = Except.error e := by
        unfold pothole_body
        rw [hld]
      unfold execute_pothole_agent_workflow
      rw [himp, hb, hi]
      simp
    | ok df =>
      rw [pothole_geo_fail env df himp hld hband]
      exact ⟨rfl, rfl⟩

theorem electricity_no_coord (env : AgentEnv)
    (hgeo : pyTruthyQ env.geo.1 = false ∨ pyTruthyQ env.geo.2 = false) :
    (execute_electricity_agent_workflow env).1.success = false ∧
    (execute_electricity_agent_workflow env).2 = false := by
  have hband : (pyTruthyQ env.geo.1 && pyTruthyQ env.geo.2) = false := by
    rcases hgeo with h | h <;> simp [h]
  have hi : analyzer_invoked env = false := by
    unfold analyzer_invoked
    cases h1 : pyTruthyQ env.geo.1 <;> cases h2 : pyTruthyQ env.geo.2 <;> simp_all
  cases himp : env.importOk with
  | false =>
    unfold execute_electricity_agent_workflow
    rw [himp]
    simp
  | true =>
    cases hld : env.loadData with
    | error e =>
      have hb : electricity_body env = Except.error e := by
        unfold electricity_body
        rw [hld]
      unfold execute_electricity_agent_workflow
      rw [himp, hb, hi]
      simp
    | ok df =>
      rw [electricity_geo_fail env df himp hld hband]
      exact ⟨rfl, rfl⟩

/-- C3: a success result of any per-category workflow carries a present,
non-None latitude and longitude; with an absent extracted coordinate the
workflow fails and never invokes the Issue Analyzer, and (when the module
loads and the roster read succeeds) the failure carries the geolocation
error message. -/
theorem c3_success_carries_coordinate (envT envP envE : AgentEnv) :
    ((execute_trash_agent_workflow envT).1.success = true →
      (∃ q, (execute_trash_agent_workflow envT).1.lat = some (some q)) ∧
      (∃ q, (execute_trash_agent_workflow envT).1.lon = some (some q))) ∧
    (envT.geo.1 = none ∨ envT.geo.2 = none →
      (execute_trash_agent_workflow envT).1.success = false ∧
      (execute_trash_agent_workflow envT).2 = false) ∧
    (∀ df, envT.importOk = true → envT.loadData = Except.ok df →
      envT.geo.1 = none ∨ envT.geo.2 = none →
      (execute_trash_agent_workflow envT).1.error =
        some "Could not retrieve geolocation data from the image.") ∧
    ((execute_pothole_agent_workflow envP).1.success = true →
      (∃ q, (execute_pothole_agent_workflow envP).1.lat = some (some q)) ∧
      (∃ q, (execute_pothole_agent_workflow envP).1.lon = some (some q))) ∧
    (envP.geo.1 = none ∨ envP.geo.2 = none →
      (execute_pothole_agent_workflow envP).1.success = false ∧
      (execute_pothole_agent_workflow envP).2 = false) ∧
    (∀ df, envP.importOk = true → envP.loadData = Except.ok df →
      envP.geo.1 = none ∨ envP.geo.2 = none →
      (execute_pothole_agent_workflow envP).1.error =
        some "Could not retrieve geolocation data from the image.") ∧
    ((execute_electricity_agent_workflow envE).1.success = true →
      (∃ q, (execute_electricity_agent_workflow envE).1.lat = some (some q)) ∧
      (∃ q, (execute_electricity_agent_workflow envE).1.lon = some (some q))) ∧
    (envE.geo.1 = none ∨ envE.geo.2 = none →
      (execute_electricity_agent_workflow envE).1.success = false ∧
      (execute_electricity_agent_workflow envE).2 = false) ∧
    (∀ df, envE.importOk = true → envE.loadData = Except.ok df →
      envE.geo.1 = none ∨ envE.geo.2 = none →
      (execute_electricity_agent_workflow envE).1.error =
        some "Could not retrieve geolocation data from the image.") := by
  refine ⟨?_, ?_, ?_, ?_, ?_, ?_, ?_, ?_, ?_⟩
  · intro hs
    exact trash_success_coords envT _ _ rfl hs
  · intro h
    refine trash_no_coord envT ?_
    rcases h with h | h
    · exact Or.inl (by rw [h]; rfl)
    · exact Or.inr (by rw [h]; rfl)
  · intro df himp hld h
    have hband : (pyTruthyQ envT.geo.1 && pyTruthyQ envT.geo.2) = false := by
      rcases h with h | h <;> simp [h, pyTruthyQ]
    rw [trash_geo_fail envT df himp hld hband]
  · intro hs
    exact pothole_success_coords envP _ _ rfl hs
  · intro h
    refine pothole_no_coord envP ?_
    rcases h with h | h
    · exact Or.inl (by rw [h]; rfl)
    · exact Or.inr (by rw [h]; rfl)
  · intro df himp hld h
    have hband : (pyTruthyQ envP.geo.1 && pyTruthyQ envP.geo.2) = false := by
      rcases h with h | h <;> simp [h, pyTruthyQ]
    rw [pothole_geo_fail envP df himp hld hband]
  · intro hs
    exact electricity_success_coords envE _ _ rfl hs
  · intro h
    refine electricity_no_coord envE ?_
    rcases h with h | h
    · exact Or.inl (by rw [h]; rfl)
    · exact Or.inr (by rw [h]; rfl)
  · intro df himp hld h
    have hband : (pyTruthyQ envE.geo.1 && pyTruthyQ envE.geo.2) = false := by
      rcases h with h | h <;> simp [h, pyTruthyQ]
    rw [electricity_geo_fail envE df himp hld hband]

/-- C3 witness: the geolocation-failure clauses applied at an environment
with no coordinate, and the success clause applied at a successful trash
run. -/
theorem c3_success_carries_coordinate_witness :
    ((execute_trash_agent_workflow noGeoEnv).1.success = false ∧
      (execute_trash_agent_workflow noGeoEnv).2 = false) ∧
    (execute_trash_agent_workflow noGeoEnv).1.error =
      some "Could not retrieve geolocation data from the image." ∧
    (∃ q, (execute_trash_agent_workflow okTrashEnv).1.lat = some (some q)) := by
  refine ⟨?_, ?_, ?_⟩
  · exact (c3_success_carries_coordinate noGeoEnv noGeoEnv noGeoEnv).2.1
      (Or.inl rfl)
  · exact (c3_success_carries_coordinate noGeoEnv noGeoEnv noGeoEnv).2.2.1
      [] rfl rfl (Or.inl rfl)
  · exact ((c3_success_carries_coordinate okTrashEnv okTrashEnv okTrashEnv).1
      (by decide)).1

/-- C10: EXIF data on the equator decodes to latitude exactly zero, and
every per-category workflow tests the extracted pair for Python truthiness
rather than for being non-None, so a zero coordinate is treated exactly
like an absent one: the workflow fails with the geolocation error message
without invoking the Issue Analyzer. -/
theorem c10_zero_coordinate_truthiness (env : AgentEnv) (df : List OfficialRow) :
    (get_geolocation (.gps
      { latitude := some (0, 0, 0), longitude := some (77, 38, 717/25),
        latitudeRef := some "N", longitudeRef := some "E" })).1 = some 0 ∧
    (env.importOk = true → env.loadData = Except.ok df →
      env.geo.1 = some 0 ∨ env.geo.2 = some 0 →
      execute_trash_agent_workflow env =
        ({ success := false, agent_type := some "trash",
           error := some "Could not retrieve geolocation data from the image." },
         false) ∧
      execute_pothole_agent_workflow env =
        ({ success := false, agent_type := some "pothole",
           error := some "Could not retrieve geolocation data from the image." },
         false) ∧
      execute_electricity_agent_workflow env =
        ({ success := false, agent_type := some "electricity",
           error := some "Could not retrieve geolocation data from the image." },
         false)) := by
  constructor
  · norm_num [get_geolocation, dmsToDecimal]
  · intro himp hld h
    have hband : (pyTruthyQ env.geo.1 && pyTruthyQ env.geo.2) = false := by
      rcases h with h | h <;> simp [h, pyTruthyQ]
    exact ⟨trash_geo_fail env df himp hld hband,
      pothole_geo_fail env df himp hld hband,
      electricity_geo_fail env df himp hld hband⟩

/-- C10 witness: the truthiness clause applied at an environment whose
latitude is exactly zero. -/
theorem c10_zero_coordinate_truthiness_witness :
    execute_trash_agent_workflow zeroLatEnv =
      ({ success := false, agent_type := some "trash",
         error := some "Could not retrieve geolocation data from the image." },
       false) ∧
    execute_electricity_agent_workflow zeroLatEnv =
      ({ success := false, agent_type := some "electricity",
         error := some "Could not retrieve geolocation data from the image." },
       false) :=
  ⟨((c10_zero_coordinate_truthiness zeroLatEnv []).2 rfl rfl (Or.inl rfl)).1,
   ((c10_zero_coordinate_truthiness zeroLatEnv []).2 rfl rfl (Or.inl rfl)).2.2⟩

/-- C1 (code bug, spec Scenario C): when geolocation succeeds but the
Issue Analyzer reply fails to parse as JSON, every per-category workflow
returns success = false, not success = true: the JSONDecodeError arm
assigns only the ward/division name, the later generate_email_content
call reads the never-assigned local `analysis`, raises, and the catch-all
converts that into a workflow-execution failure, so the defaulted Email
Draft is never built. -/
theorem c1_prose_reply_fails_pipeline :
    (execute_trash_agent_workflow proseReplyEnv).1 =
      { success := false, agent_type := some "trash",
        error := some ("Workflow execution failed: " ++ unboundAnalysisMsg) } ∧
    (execute_pothole_agent_workflow proseReplyEnv).1 =
      { success := false, agent_type := some "pothole",
        error := some ("Workflow execution failed: " ++ unboundAnalysisMsg) } ∧
    (execute_electricity_agent_workflow proseReplyEnv).1 =
      { success := false, agent_type := some "electricity",
        error := some ("Workflow execution failed: " ++ unboundAnalysisMsg) } ∧
    (execute_trash_agent_workflow proseReplyEnv).2 = true :=
  ⟨rfl, rfl, rfl, rfl⟩

/-- C9 (spec Scenario A): with GPS tags decoding to 12.9719 N, 77.6413 E
and an Issue Analyzer reply parsing to issue_present = true, issue_type
"Street Light" and severity "Medium", the electricity workflow succeeds
with category tag "electricity" and the Email Draft subject starts with
"URGENT: Street Light Issue". -/
theorem c9_scenario_a :
    get_geolocation (.gps
      { latitude := some (12, 58, 471/25), longitude := some (77, 38, 717/25),
        latitudeRef := some "N", longitudeRef := some "E" }) = scenarioAEnv.geo ∧
    (execute_electricity_agent_workflow scenarioAEnv).1.success = true ∧
    (execute_electricity_agent_workflow scenarioAEnv).1.agent_type = some "electricity" ∧
    Option.any (fun ec => chPre "URGENT: Street Light Issue".data ec.subject.data)
      (execute_electricity_agent_workflow scenarioAEnv).1.email_content = true := by
  have h1 : pyTruthyQ (some ((129719 : ℚ)/10000)) = true := by
    simp [pyTruthyQ]
  have h2 : pyTruthyQ (some ((776413 : ℚ)/10000)) = true := by
    simp [pyTruthyQ]
  refine ⟨?_, ?_, ?_, ?_⟩
  · norm_num [get_geolocation, dmsToDecimal, scenarioAEnv]
    exact ⟨by decide, by decide⟩
  · simp only [execute_electricity_agent_workflow, electricity_body, scenarioAEnv]
    simp [h1, h2, scenarioAAnalysis]
  · simp only [execute_electricity_agent_workflow, electricity_body, scenarioAEnv]
    simp [h1, h2, scenarioAAnalysis]
  · simp only [execute_electricity_agent_workflow, electricity_body, scenarioAEnv]
    simp [h1, h2, scenarioAAnalysis]
    decide

/-- C4: process_request never raises: its try body always produces a
result, which is returned unchanged; and when the body of a dispatched
per-category workflow raises an exception, the returned result is a
failure carrying the exception text. -/
theorem c4_orchestrator_never_raises (env : OrchEnv) (user_query : String)
    (image_path : Option String) :
    (∃ r, process_request_body env user_query image_path = Except.ok r ∧
      process_request env user_query image_path = r) ∧
    (∀ e, get_user_intent env user_query = "report_trash" →
      pyTruthyS image_path = true → env.trashEnv.importOk = true →
      trash_body env.trashEnv = Except.error e →
      process_request env user_query image_path =
        { success := false, agent_type := some "trash",
          error := some ("Workflow execution failed: " ++ e) }) ∧
    (∀ e, get_user_intent env user_query = "report_pothole" →
      pyTruthyS image_path = true → env.potholeEnv.importOk = true →
      pothole_body env.potholeEnv = Except.error e →
      process_request env user_query image_path =
        { success := false, agent_type := some "pothole",
          error := some ("Workflow execution failed: " ++ e) }) ∧
    (∀ e, get_user_intent env user_query = "report_electricity" →
      pyTruthyS image_path = true → env.electricityEnv.importOk = true →
      electricity_body env.electricityEnv = Except.error e →
      process_request env user_query image_path =
        { success := false, agent_type := some "electricity",
          error := some ("Workflow execution failed: " ++ e) }) := by
  refine ⟨?_, ?_, ?_, ?_⟩
  · simp only [process_request, process_request_body]
    split_ifs <;> exact ⟨_, rfl, rfl⟩
  · intro e hint himg himp hb
    have hx : execute_trash_agent_workflow env.trashEnv =
        ({ success := false, agent_type := some "trash",
           error := some ("Workflow execution failed: " ++ e) },
         analyzer_invoked env.trashEnv) := by
      unfold execute_trash_agent_workflow
      rw [himp, hb]
      simp
    unfold process_request process_request_body
    rw [hint, himg]
    simp [hx]
  · intro e hint himg himp hb
    have hx : execute_pothole_agent_workflow env.potholeEnv =
        ({ success := false, agent_type := some "pothole",
           error := some ("Workflow execution failed: " ++ e) },
         analyzer_invoked env.potholeEnv) := by
      unfold execute_pothole_agent_workflow
      rw [himp, hb]
      simp
    unfold process_request process_request_body
    rw [hint, himg]
    simp [hx]
  · intro e hint himg himp hb
    have hx : execute_electricity_agent_workflow env.electricityEnv =
        ({ success := false, agent_type := some "electricity",
           error := some ("Workflow execution failed: " ++ e) },
         analyzer_invoked env.electricityEnv) := by
      unfold execute_electricity_agent_workflow
      rw [himp, hb]
      simp
    unfold process_request process_request_body
    rw [hint, himg]
    simp [hx]

/-- C4 witness: an exception raised by the roster load inside the trash
pipeline surfaces as a failure result carrying the exception text. -/
theorem c4_orchestrator_never_raises_witness :
    process_request loadFailOrchEnv "please report this garbage" (some "photo.jpg") =
      { success := false, agent_type := some "trash",
        error := some ("Workflow execution failed: " ++ "boom") } :=
  (c4_orchestrator_never_raises loadFailOrchEnv "please report this garbage"
    (some "photo.jpg")).2.1 "boom" (by decide) (by decide) rfl rfl

set_option maxRecDepth 8000 in
/-- C6 counterexample: with every assessment field absent, the electricity
drafter takes its no-issue branch, and the severity default "N/A" (and
likewise the issue-type default "Electrical Issue") appears nowhere in the
subject or body, so not every field is rendered with a substitution
default placeholder in the output. -/
theorem c6_counterexample :
    containsStr (electricity_generate_email_content {} nullCoordLoc).subject
      "N/A" = false ∧
    containsStr (electricity_generate_email_content {} nullCoordLoc).body
      "N/A" = false ∧
    containsStr (electricity_generate_email_content {} nullCoordLoc).body
      "Electrical Issue" = false := by
  refine ⟨?_, ?_, ?_⟩ <;> decide

set_option maxRecDepth 8000 in
/-- C6 (amended): the drafters are total functions of the assessment, so
generation never throws whichever fields are absent, and each field read
has a substitution default.  The trash drafter renders every assessment
default in its single template (the severity default also in the
subject); the pothole and electricity drafters render the defaults in
their issue-present branch, while with the presence flag absent (default
false) the fixed no-issue template is rendered instead. -/
theorem c6_email_defaults :
    (∀ (a : Analysis) (loc : LocationInfo),
      (trash_generate_email_content a loc).toAddr = "info@bbmp.gov.in" ∧
      (pothole_generate_email_content a loc).toAddr = "info@bbmp.gov.in" ∧
      (electricity_generate_email_content a loc).toAddr = "info@bescom.co.in") ∧
    containsStr (trash_generate_email_content {} nullCoordLoc).body
      "Mixed waste" = true ∧
    containsStr (trash_generate_email_content {} nullCoordLoc).body
      "N/A" = true ∧
    containsStr (trash_generate_email_content {} nullCoordLoc).body
      "Trash issue reported by citizen" = true ∧
    containsStr (trash_generate_email_content {} nullCoordLoc).subject
      "N/A" = true ∧
    containsStr (pothole_generate_email_content {} nullCoordLoc).body
      "No significant pothole was detected" = true ∧
    containsStr (pothole_generate_email_content { is_pothole_present := some true }
      nullCoordLoc).body "- Number of Potholes: N/A" = true ∧
    containsStr (pothole_generate_email_content { is_pothole_present := some true }
      nullCoordLoc).body "- Severity Level: N/A" = true ∧
    containsStr (pothole_generate_email_content { is_pothole_present := some true }
      nullCoordLoc).body "Pothole reported by citizen" = true ∧
    containsStr (electricity_generate_email_content {} nullCoordLoc).body
      "No specific electrical issue was detected" = true ∧
    containsStr (electricity_generate_email_content { issue_present := some true }
      nullCoordLoc).body "- Type of Issue: Electrical Issue" = true ∧
    containsStr (electricity_generate_email_content { issue_present := some true }
      nullCoordLoc).body "- Severity Level: N/A" = true ∧
    containsStr (electricity_generate_email_content { issue_present := some true }
      nullCoordLoc).body "Electrical issue reported by citizen" = true := by
  refine ⟨fun a loc => ⟨rfl, ?_, ?_⟩, ?_, ?_, ?_, ?_, ?_, ?_, ?_, ?_, ?_, ?_, ?_, ?_⟩
  · simp only [pothole_generate_email_content]
    split <;> rfl
  · simp only [electricity_generate_email_content]
    split <;> rfl
  all_goals decide
